import Mathlib

/-!
Verification of the notification-escalation state machine of
`telegram_monitor.py` (class `PublicChannelMonitor`).

Modelling conventions:

* Python strings that are sliced (`s[:150]`, `s[:100]`) are modelled as
  `List Char` — a Python `str` is a sequence of code points and `s[:n]` is
  `List.take n`.  Strings that are only compared or concatenated stay `String`.
* The two shared mutable flags `self.notification_active` and
  `self.stop_requested` form `EscalationState`.
* The command poller runs concurrently with the notification loop
  (cooperative asyncio scheduling; interleaving only at `await` points).
  Its interference on the loop is modelled by a schedule `stopBy : Nat → Bool`:
  `stopBy k` holds iff, by the time the `while` condition is evaluated with
  `notification_count = k`, the poller has handled a valid stop command
  (in `check_stop_command` it then set `stop_requested := True` and
  `notification_active := False`).  These are the only writers of the flags
  while a cycle runs, so the flags seen at check `k` are `flags_at stopBy k`.
* The bot transport is modelled by outcome parameters: `deliver m` is the
  outcome of `bot.send_message` for message `m` (`none` = delivered,
  `some e` = raises `TelegramError e`); `fetch` is the outcome of
  `bot.get_updates(limit=10)`.
-/

namespace TelegramMonitor

/-- The shared mutable flags of `PublicChannelMonitor`:
`self.notification_active` and `self.stop_requested` (set in `__init__`,
mutated by `start_notification_loop`, `check_stop_command` and
`stop_monitoring`). -/
structure EscalationState where
  notification_active : Bool
  stop_requested : Bool
deriving Repr, DecidableEq

/-- The sender object of an inbound channel message, as used at lines 109-111:
`getattr(new_message.sender, 'first_name', 'Unknown')` and the optional
`username`. -/
structure Sender where
  first_name : Option String
  username : Option String
deriving Repr, DecidableEq

/-- Lines 109-111: `sender_name = getattr(sender, 'first_name', 'Unknown')`;
then `if hasattr(sender, 'username') and sender.username:` (Python truthiness:
`None` and `""` are falsy) `sender_name = f"@\x7bsender.username\x7d"`. -/
def sender_display (s : Sender) : String :=
  let base := s.first_name.getD "Unknown"
  match s.username with
  | some u => if u = "" then base else "@" ++ u
  | none => base

/-- The fields of `new_message` used by `start_notification_loop`:
`text` (`None` for media-only messages, modelled as a code-point list so that
Python slicing is `List.take`), `sender`, and the already formatted
`date.strftime(...)` timestamp. -/
structure ChannelMessage where
  text : Option (List Char)
  sender : Sender
  timestamp : String
deriving Repr, DecidableEq

/-- Line 113:
`message_preview = new_message.text[:150] if new_message.text else "Media message"`.
Python truthiness: the `else` branch is taken when `text` is `None` or the
empty string. -/
def message_preview (text : Option (List Char)) : List Char :=
  match text with
  | some t => if t.isEmpty then "Media message".toList else t.take 150
  | none => "Media message".toList

/-- Line 117: `max_notifications = 25  # Safety limit`. -/
def max_notifications : Nat := 25

/-- A message handed to `bot.send_message`, by its template and the values of
its format slots:
* `initial` — the initial detailed notification (lines 120-127): channel,
  `sender_name`, `timestamp`, and `message_preview` (the full, at most
  150-character preview);
* `alert` — an escalation alert (lines 136-143): `notification_count`,
  channel, `timestamp`, and `previewSlot`, the slice `message_preview[:100]`
  which the template renders as `<i>...slot...</i>` followed by the literal
  ellipsis `...`;
* `maxReached` — line 151, the "Maximum notifications reached" notice;
* `stopConfirmation` — lines 169-172, the text `stop_confirmation_text`;
* `startup` — lines 192-198, the "Channel Monitor Started" message. -/
inductive Sent where
  | initial (channel : String) (sender_name : String) (timestamp : String)
      (preview : List Char)
  | alert (seq : Nat) (channel : String) (timestamp : String)
      (previewSlot : List Char)
  | maxReached
  | stopConfirmation
  | startup (channel : String) (interval : Int)
deriving Repr, DecidableEq

/-- The rendering of the preview slot inside an escalation alert: the template
(line 141) is `💬 <i>\x7bmessage_preview[:100]\x7d...</i>`, so a literal
ellipsis always follows the 100-character slice. -/
def alert_preview_rendered (slot : List Char) : List Char :=
  slot ++ "...".toList

/-- The literal text of the stop confirmation sent at lines 169-172. -/
def stop_confirmation_text : String := "✅ Notifications stopped!"

/-- Lines 89-98, `send_notification`: `bot.send_message` wrapped in
`try/except TelegramError`, which logs the error and returns normally.
`outcome` is the transport's behaviour for this call (`none` = delivered,
`some e` = raises `TelegramError e`).  Returns (delivered messages, error-log
lines). -/
def send_notification (outcome : Option String) (m : Sent) :
    List Sent × List String :=
  match outcome with
  | none => ([m], [])
  | some e => ([], ["Error sending notification: " ++ e])

/-- The value of the shared flags observed by the `while` condition at check
number `k` of one cycle: the cycle entry (lines 105-106) set them to
`(true, false)`; the only concurrent writer during a cycle is
`check_stop_command`, which sets them to `(false, true)` when it handles a
stop command (`stopBy k` = it has done so before check `k`). -/
def flags_at (stopBy : Nat → Bool) (k : Nat) : EscalationState :=
  if stopBy k then ⟨false, true⟩ else ⟨true, false⟩

/-- Result of a run of the `while` loop of `start_notification_loop`
(lines 133-148): the composed alerts handed to `send_notification`
(`attempted`), those the transport delivered, the error-log lines, and the
final value of the local `notification_count`. -/
structure LoopResult where
  attempted : List Sent
  delivered : List Sent
  errors : List String
  finalCount : Nat
deriving Repr, DecidableEq

/-- Lines 133-148, the alerting `while` loop, starting from
`notification_count = count`:

`while self.notification_active and not self.stop_requested and
notification_count < max_notifications:` — the flags read by the condition are
`flags_at stopBy count`.  Each iteration increments `notification_count`,
composes the alert (whose preview slot is `message_preview[:100]`, passed in
as `slot`), sends it through `send_notification`, and sleeps for the
notification interval (the `await` point at which the poller may run). -/
def alert_loop (channel timestamp : String) (slot : List Char)
    (stopBy : Nat → Bool) (deliver : Sent → Option String) (count : Nat) :
    LoopResult :=
  if h : (flags_at stopBy count).notification_active = true ∧
      (flags_at stopBy count).stop_requested = false ∧
      count < max_notifications then
    let c := count + 1
    let m := Sent.alert c channel timestamp slot
    let s := send_notification (deliver m) m
    let rest := alert_loop channel timestamp slot stopBy deliver c
    ⟨m :: rest.attempted, s.1 ++ rest.delivered, s.2 ++ rest.errors,
      rest.finalCount⟩
  else
    ⟨[], [], [], count⟩
termination_by max_notifications - count
decreasing_by simp_wf; omega

/-- Result of one invocation of `start_notification_loop`: all messages handed
to `send_notification` in order, those delivered, the error log, and the
final flag state. -/
structure CycleResult where
  attempted : List Sent
  delivered : List Sent
  errors : List String
  final : EscalationState
deriving Repr, DecidableEq

/-- Lines 100-154, `start_notification_loop`:
line 102 guard `if self.notification_active: return` (no-op);
lines 105-106 set `notification_active = True`, `stop_requested = False`;
lines 109-127 compose and send the initial detailed notification;
line 131 settle delay `await asyncio.sleep(5)` (a stop handled during it is
`stopBy 0`); lines 133-148 the alert loop; lines 150-151 the
"maximum notifications reached" notice when the count hit the cap;
line 153 `self.notification_active = False` (`stop_requested` keeps the value
the poller left). -/
def start_notification_loop (st : EscalationState) (channel : String)
    (msg : ChannelMessage) (stopBy : Nat → Bool)
    (deliver : Sent → Option String) : CycleResult :=
  if st.notification_active then
    ⟨[], [], [], st⟩
  else
    let sender_name := sender_display msg.sender
    let preview := message_preview msg.text
    let timestamp := msg.timestamp
    let initialMsg := Sent.initial channel sender_name timestamp preview
    let s0 := send_notification (deliver initialMsg) initialMsg
    let slot := preview.take 100
    let r := alert_loop channel timestamp slot stopBy deliver 0
    let s1 : List Sent × List String :=
      if max_notifications ≤ r.finalCount then
        send_notification (deliver Sent.maxReached) Sent.maxReached
      else ([], [])
    let tailMsgs : List Sent :=
      if max_notifications ≤ r.finalCount then [Sent.maxReached] else []
    ⟨initialMsg :: (r.attempted ++ tailMsgs),
     s0.1 ++ (r.delivered ++ s1.1),
     s0.2 ++ (r.errors ++ s1.2),
     ⟨false, (flags_at stopBy r.finalCount).stop_requested⟩⟩

/-- Python `str.lower()`: each character lowercased.  (`Char.toLower` maps the
ASCII range, which covers the `/stop` keyword; Python additionally lowercases
non-ASCII letters.) -/
def pyLower (s : List Char) : List Char := s.map Char.toLower

/-- Python `str.strip()`: surrounding whitespace removed from both ends.
(`Char.isWhitespace` covers space, tab, carriage return and newline; Python
additionally strips the rarer Unicode whitespace characters.) -/
def pyStrip (s : List Char) : List Char :=
  ((s.dropWhile Char.isWhitespace).reverse.dropWhile Char.isWhitespace).reverse

/-- Fields `update.message.from_user.id` and `update.message.text` of a
bot update's message used by `check_stop_command`.  The text is a code-point
list, like every sliced/normalized Python string in this model. -/
structure BotMessage where
  from_user_id : Int
  text : Option (List Char)
deriving Repr, DecidableEq

/-- One update returned by `bot.get_updates`. -/
structure Update where
  update_id : Int
  message : Option BotMessage
deriving Repr, DecidableEq

/-- Lines 161-164, the stop-command test:
`update.message and update.message.from_user.id == self.user_id and
update.message.text and update.message.text.strip().lower() == '/stop'`.
Python truthiness: a `None` message or a `None`/empty text fails the test.
`.strip()`/`.lower()` are `pyStrip`/`pyLower`. -/
def is_stop_update (user_id : Int) (u : Update) : Bool :=
  match u.message with
  | none => false
  | some m =>
    m.from_user_id == user_id &&
    (match m.text with
     | none => false
     | some t => !(t == []) && (pyLower (pyStrip t) == "/stop".toList))

/-- Result of one call to `check_stop_command`: the flag state it leaves, the
messages it sent, the offset acknowledged through the second
`bot.get_updates(offset=...)` call (Telegram marks every update with
`update_id < offset` as consumed), and its return value. -/
structure PollResult where
  state : EscalationState
  sent : List Sent
  ackedOffset : Option Int
  handled : Bool
deriving Repr, DecidableEq

/-- The `for update in updates:` scan of `check_stop_command`
(lines 160-177).  On the first update passing `is_stop_update`:
set `stop_requested := True` then `notification_active := False`
(lines 166-167), then send the confirmation (may raise — `confirmFails`),
then call `get_updates(offset=update.update_id + 1)` (may raise —
`ackFails`), then `return True`; the remaining updates of the batch are never
examined.  An exception from either call is caught by the surrounding
`try/except` (line 178), which logs and falls through to `return False` —
after the flags were already assigned. -/
def stop_scan (user_id : Int) (confirmFails ackFails : Bool)
    (st : EscalationState) : List Update → PollResult
  | [] => ⟨st, [], none, false⟩
  | u :: rest =>
    if is_stop_update user_id u then
      let st' : EscalationState := ⟨false, true⟩
      if confirmFails then ⟨st', [], none, false⟩
      else if ackFails then ⟨st', [Sent.stopConfirmation], none, false⟩
      else ⟨st', [Sent.stopConfirmation], some (u.update_id + 1), true⟩
    else stop_scan user_id confirmFails ackFails st rest

/-- Lines 156-180, `check_stop_command`: fetch pending updates
(`bot.get_updates(limit=10)` — the transport returns at most 10 updates or
raises, modelled by `fetch`), then scan them; every exception is caught,
logged, and the function returns `False` with whatever state was already
assigned. -/
def check_stop_command (st : EscalationState) (user_id : Int)
    (fetch : Except String (List Update)) (confirmFails ackFails : Bool) :
    PollResult :=
  match fetch with
  | .error _ => ⟨st, [], none, false⟩
  | .ok updates => stop_scan user_id confirmFails ackFails st updates

/-- The process environment, restricted to the variables the monitor reads
(`os.getenv` returns `None` for an absent variable). -/
structure Env where
  API_ID : Option String
  API_HASH : Option String
  PHONE_NUMBER : Option String
  BOT_TOKEN : Option String
  USER_ID : Option String
  CHANNEL_USERNAME : Option String
  NOTIFICATION_INTERVAL : Option String
deriving Repr, DecidableEq

/-- Model of `os.getenv(name, default)`. -/
def getenv (v : Option String) (default : String) : String := v.getD default

/-- Decimal digit parsing: `some` the value of a non-empty all-digit string,
`none` otherwise. -/
def digitsToNat? (l : List Char) : Option Nat :=
  if l = [] then none
  else if l.all Char.isDigit then
    some (l.foldl (fun acc c => acc * 10 + (c.toNat - '0'.toNat)) 0)
  else none

/-- Python `int(s)` on a decimal string: surrounding whitespace is allowed,
then an optional sign and a non-empty digit run; anything else raises
`ValueError` (`none`).  (Python additionally accepts `_` digit separators,
which do not occur in the environments considered here.) -/
def pyInt (s : String) : Option Int :=
  match pyStrip s.toList with
  | '-' :: rest => (digitsToNat? rest).map (fun n => -(n : Int))
  | '+' :: rest => (digitsToNat? rest).map (fun n => (n : Int))
  | t => (digitsToNat? t).map (fun n => (n : Int))

/-- The configuration attributes set in `__init__` (lines 24-30). -/
structure Config where
  api_id : Int
  api_hash : String
  phone_number : String
  bot_token : String
  user_id : Int
  channel_username : String
  notification_interval : Int
deriving Repr, DecidableEq

/-- A Python value appearing in the `required_vars` dict of
`_validate_config`: either an `int`-typed or a `str`-typed setting. -/
inductive PyValue where
  | intV (i : Int)
  | strV (s : String)
deriving Repr, DecidableEq

/-- Line 55: `not value or (isinstance(value, int) and value == 0)`.
Python truthiness: `not i` for an int is `i == 0`, `not s` for a string is
`s == ""`; the `isinstance` disjunct is subsumed for ints and false for
strings. -/
def var_missing : PyValue → Bool
  | .intV i => !(i != 0) || (i == 0)
  | .strV s => !(s != "")

/-- Lines 45-52: the `required_vars` dict, in insertion order. -/
def required_vars (c : Config) : List (String × PyValue) :=
  [("API_ID", .intV c.api_id),
   ("API_HASH", .strV c.api_hash),
   ("PHONE_NUMBER", .strV c.phone_number),
   ("BOT_TOKEN", .strV c.bot_token),
   ("USER_ID", .intV c.user_id),
   ("CHANNEL_USERNAME", .strV c.channel_username)]

/-- Lines 54-55: the `missing_vars` list comprehension. -/
def missing_vars (c : Config) : List String :=
  ((required_vars c).filter (fun p => var_missing p.2)).map (fun p => p.1)

/-- Line 59: the message of the `ValueError` raised when settings are
missing. -/
def missing_message (missing : List String) : String :=
  "Missing required environment variables: " ++ String.intercalate ", " missing

/-- Lines 43-61, `_validate_config`: raises `ValueError` carrying the names of
the missing settings when there are any. -/
def validate_config (c : Config) : Except (List String) Unit :=
  if missing_vars c = [] then .ok () else .error (missing_vars c)

/-- An error raised by `__init__`: a `ValueError` from an `int(...)`
conversion of a non-numeric environment string (naming the setting), or the
`ValueError` of `_validate_config` (naming every missing setting). -/
inductive InitError where
  | valueError (setting : String)
  | missingSettings (missing : List String)
deriving Repr, DecidableEq

/-- Lines 22-41, `PublicChannelMonitor.__init__`: read and convert the seven
environment variables, then run `_validate_config`.  The `str`-typed reads
cannot fail, so the only possible exceptions are the three `int(...)`
conversions, raised in source order API_ID, USER_ID, NOTIFICATION_INTERVAL.
Pure — no network activity happens before or during `__init__`. -/
def monitor_init (env : Env) : Except InitError Config :=
  match pyInt (getenv env.API_ID "0") with
  | none => .error (.valueError "API_ID")
  | some api_id =>
    match pyInt (getenv env.USER_ID "0") with
    | none => .error (.valueError "USER_ID")
    | some user_id =>
      match pyInt (getenv env.NOTIFICATION_INTERVAL "30") with
      | none => .error (.valueError "NOTIFICATION_INTERVAL")
      | some notification_interval =>
        let cfg : Config := ⟨api_id, getenv env.API_HASH "",
          getenv env.PHONE_NUMBER "", getenv env.BOT_TOKEN "", user_id,
          getenv env.CHANNEL_USERNAME "", notification_interval⟩
        match validate_config cfg with
        | .error missing => .error (.missingSettings missing)
        | .ok _ => .ok cfg

/-- Result of `setup_client`: the log lines emitted and either success or the
raised exception's message. -/
structure SetupResult where
  logs : List String
  outcome : Except String Unit
deriving Repr

/-- Lines 63-87, `setup_client`: warn when no session file exists; after
`client.start`, if `is_user_authorized()` is false, log two errors (the second
instructs the operator to authenticate interactively) and raise
`Exception("Authentication required")`. -/
def setup_client (session_file_exists authorized : Bool) : SetupResult :=
  let warn : List String :=
    if session_file_exists then []
    else ["No existing session found. First-time setup required.",
          "You may need to run this interactively first to authenticate."]
  if authorized then ⟨warn, .ok ()⟩
  else ⟨warn ++ ["User not authorized. Session may be invalid or missing.",
                 "Please run the script interactively first to authenticate."],
        .error "Authentication required"⟩

/-- The observable outcome of `start_monitoring`: log lines, the startup
message sent (if any), whether the `NewMessage` event handler was installed
(the channel subscription), and whether the stop-command polling loop was
entered. -/
structure MonitorStart where
  logs : List String
  startupSent : List Sent
  handlerInstalled : Bool
  pollerRuns : Bool
deriving Repr, DecidableEq

/-- Lines 182-213, `start_monitoring`: `setup_client` failures are caught,
logged, and the method returns — no startup message is sent, the `NewMessage`
handler is never registered, and the `while True` command-poll loop is never
entered.  On success, the startup message is sent, the handler installed, and
the poll loop entered. -/
def start_monitoring (session_file_exists authorized : Bool)
    (channel : String) (interval : Int) : MonitorStart :=
  let s := setup_client session_file_exists authorized
  match s.outcome with
  | .error e =>
      ⟨s.logs ++ ["Failed to setup client: " ++ e,
                  "Make sure you have run the initial authentication setup."],
       [], false, false⟩
  | .ok _ =>
      ⟨s.logs, [Sent.startup channel interval], true, true⟩

/-- Process startup (`main` → `__init__` → `start_monitoring`): `__init__` is
pure configuration handling; the first network activity lives inside
`start_monitoring`, which is only reached when `monitor_init` succeeds. -/
def program_startup (env : Env) (session_file_exists authorized : Bool) :
    Except InitError MonitorStart :=
  match monitor_init env with
  | .error e => .error e
  | .ok cfg => .ok (start_monitoring session_file_exists authorized
      cfg.channel_username cfg.notification_interval)

/-- Spec side (for claim C6): the required settings that are "absent or
zero-valued" in `env`, in the order the spec lists them.  "Zero-valued" is the
integer value `0` for the `int`-typed settings and the empty string for the
`str`-typed ones. -/
def spec_missing_settings (env : Env) : List String :=
  (if env.API_ID = none ∨ pyInt (getenv env.API_ID "0") = some 0
    then ["API_ID"] else []) ++
  (if env.API_HASH = none ∨ env.API_HASH = some "" then ["API_HASH"] else []) ++
  (if env.PHONE_NUMBER = none ∨ env.PHONE_NUMBER = some ""
    then ["PHONE_NUMBER"] else []) ++
  (if env.BOT_TOKEN = none ∨ env.BOT_TOKEN = some ""
    then ["BOT_TOKEN"] else []) ++
  (if env.USER_ID = none ∨ pyInt (getenv env.USER_ID "0") = some 0
    then ["USER_ID"] else []) ++
  (if env.CHANNEL_USERNAME = none ∨ env.CHANNEL_USERNAME = some ""
    then ["CHANNEL_USERNAME"] else [])

/-- Holds exactly on initial detailed notifications; counting these counts
started escalation cycles (one is sent at the start of every cycle and
nowhere else). -/
def is_initial : Sent → Bool
  | .initial _ _ _ _ => true
  | _ => false

/-- Number of escalation-cycle starts visible in a send trace. -/
def count_initials (l : List Sent) : Nat := (l.filter is_initial).length

/-- End-to-end scenario A (spec §8.5): flags initially idle, one triggering
message, no stop command is ever handled, every send is delivered. -/
def scenarioA (channel : String) (msg : ChannelMessage) : CycleResult :=
  start_notification_loop ⟨false, false⟩ channel msg (fun _ => false)
    (fun _ => none)

/-- End-to-end scenario B (spec §8.6): flags initially idle, one triggering
message, the poller handles a valid stop command during the sleep that follows
alert number `n` (so the flags are flipped from check `n` on), every send is
delivered.  The combined send trace interleaves chronologically as: the
cycle's sends, then the poller's confirmation (the cycle sends nothing after
alert `n` once the stop was handled).  The second component is the flag state
after the cycle ends. -/
def scenario_stop_after (n : Nat) (channel : String) (msg : ChannelMessage)
    (user_id : Int) (u : Update) : List Sent × EscalationState :=
  let poll := check_stop_command ⟨true, false⟩ user_id (.ok [u]) false false
  let cycle := start_notification_loop ⟨false, false⟩ channel msg
    (fun k => decide (n ≤ k)) (fun _ => none)
  (cycle.attempted ++ poll.sent, cycle.final)

/-! ## Lemmas about the alerting loop -/

theorem flags_at_active (stopBy : Nat → Bool) (k : Nat) :
    (flags_at stopBy k).notification_active = !stopBy k := by
  unfold flags_at; cases h : stopBy k <;> simp [h]

theorem flags_at_stop (stopBy : Nat → Bool) (k : Nat) :
    (flags_at stopBy k).stop_requested = stopBy k := by
  unfold flags_at; cases h : stopBy k <;> simp [h]

/-- Behaviour of one run of the alerting loop from `notification_count =
count ≤ 25`: the attempted alerts carry the consecutive sequence numbers
`count+1, ..., finalCount`; the final count stays within the cap; the loop
exits either because a stop was handled or because the count reached the cap;
deliveries are exactly the attempts the transport accepted, and every rejected
attempt produces one error-log line. -/
theorem alert_loop_spec (channel timestamp : String) (slot : List Char)
    (stopBy : Nat → Bool) (deliver : Sent → Option String) :
    ∀ fuel count, count ≤ max_notifications → max_notifications - count ≤ fuel →
      (alert_loop channel timestamp slot stopBy deliver count).attempted =
        (List.range' (count + 1)
          ((alert_loop channel timestamp slot stopBy deliver count).finalCount
            - count)).map (fun i => Sent.alert i channel timestamp slot) ∧
      count ≤ (alert_loop channel timestamp slot stopBy deliver count).finalCount ∧
      (alert_loop channel timestamp slot stopBy deliver count).finalCount
        ≤ max_notifications ∧
      (stopBy (alert_loop channel timestamp slot stopBy deliver count).finalCount
          = true ∨
        (alert_loop channel timestamp slot stopBy deliver count).finalCount
          = max_notifications) ∧
      (alert_loop channel timestamp slot stopBy deliver count).delivered =
        (alert_loop channel timestamp slot stopBy deliver count).attempted.filter
          (fun m => (deliver m).isNone) ∧
      (alert_loop channel timestamp slot stopBy deliver count).errors.length =
        ((alert_loop channel timestamp slot stopBy deliver count).attempted.filter
          (fun m => (deliver m).isSome)).length := by
  intro fuel
  induction fuel with
  | zero =>
    intro count hle hf
    have hc : count = max_notifications := by omega
    rw [alert_loop]
    simp [flags_at_active, flags_at_stop, hc]
  | succ n ih =>
    intro count hle hf
    by_cases hstop : stopBy count = true
    · rw [alert_loop]
      simp [flags_at, hstop, hle]
    · have hstop' : stopBy count = false := by
        cases h : stopBy count
        · rfl
        · exact absurd h hstop
      by_cases hlt : count < max_notifications
      · have := ih (count + 1) (by omega) (by omega)
        obtain ⟨ihA, ihLo, ihHi, ihExit, ihD, ihE⟩ := this
        have hcond : (flags_at stopBy count).notification_active = true ∧
            (flags_at stopBy count).stop_requested = false ∧
            count < max_notifications := by
          refine ⟨?_, ?_, hlt⟩ <;> simp [flags_at, hstop']
        rw [alert_loop, dif_pos hcond]
        dsimp only
        refine ⟨?_, by omega, ihHi, ihExit, ?_, ?_⟩
        · have hsub : (alert_loop channel timestamp slot stopBy deliver
              (count + 1)).finalCount - count =
              ((alert_loop channel timestamp slot stopBy deliver
                (count + 1)).finalCount - (count + 1)) + 1 := by omega
          rw [hsub, List.range'_succ, List.map_cons, ihA]
        · cases hd : deliver (Sent.alert (count + 1) channel timestamp slot) with
          | none => simp [send_notification, hd, ihD, List.filter_cons]
          | some e => simp [send_notification, hd, ihD, List.filter_cons]
        · cases hd : deliver (Sent.alert (count + 1) channel timestamp slot) with
          | none => simp [send_notification, hd, ihE, List.filter_cons]
          | some e => simp [send_notification, hd, ihE, List.filter_cons]
      · have hc : count = max_notifications := by omega
        rw [alert_loop]
        simp [flags_at, hstop', hc]

/-- The alerts composed and the final count are independent of the
transport's delivery outcomes: a send failure never changes the control flow
of the loop. -/
theorem alert_loop_deliver_irrel (channel timestamp : String) (slot : List Char)
    (stopBy : Nat → Bool) :
    ∀ fuel count, max_notifications - count ≤ fuel →
      ∀ d d' : Sent → Option String,
      (alert_loop channel timestamp slot stopBy d count).attempted =
        (alert_loop channel timestamp slot stopBy d' count).attempted ∧
      (alert_loop channel timestamp slot stopBy d count).finalCount =
        (alert_loop channel timestamp slot stopBy d' count).finalCount := by
  intro fuel
  induction fuel with
  | zero =>
    intro count hf d d'
    have h25 : ¬ ((flags_at stopBy count).notification_active = true ∧
        (flags_at stopBy count).stop_requested = false ∧
        count < max_notifications) := by
      rintro ⟨-, -, hlt⟩; omega
    rw [alert_loop, dif_neg h25, alert_loop, dif_neg h25]
    exact ⟨rfl, rfl⟩
  | succ n ih =>
    intro count hf d d'
    by_cases hcond : (flags_at stopBy count).notification_active = true ∧
        (flags_at stopBy count).stop_requested = false ∧
        count < max_notifications
    · have hih := ih (count + 1) (by omega) d d'
      rw [alert_loop, dif_pos hcond, alert_loop, dif_pos hcond]
      dsimp only
      exact ⟨by rw [hih.1], hih.2⟩
    · rw [alert_loop, dif_neg hcond, alert_loop, dif_neg hcond]
      exact ⟨rfl, rfl⟩

/-! ## Unfolding lemmas for one escalation cycle -/

theorem cycle_attempted (st : EscalationState) (h : st.notification_active = false)
    (channel : String) (msg : ChannelMessage) (stopBy : Nat → Bool)
    (deliver : Sent → Option String) :
    (start_notification_loop st channel msg stopBy deliver).attempted =
      Sent.initial channel (sender_display msg.sender) msg.timestamp
          (message_preview msg.text) ::
        ((alert_loop channel msg.timestamp ((message_preview msg.text).take 100)
            stopBy deliver 0).attempted ++
          (if max_notifications ≤ (alert_loop channel msg.timestamp
              ((message_preview msg.text).take 100) stopBy deliver 0).finalCount
            then [Sent.maxReached] else [])) := by
  unfold start_notification_loop
  simp [h]

theorem cycle_delivered (st : EscalationState) (h : st.notification_active = false)
    (channel : String) (msg : ChannelMessage) (stopBy : Nat → Bool)
    (deliver : Sent → Option String) :
    (start_notification_loop st channel msg stopBy deliver).delivered =
      (send_notification (deliver (Sent.initial channel (sender_display msg.sender)
          msg.timestamp (message_preview msg.text)))
        (Sent.initial channel (sender_display msg.sender) msg.timestamp
          (message_preview msg.text))).1 ++
      ((alert_loop channel msg.timestamp ((message_preview msg.text).take 100)
          stopBy deliver 0).delivered ++
        (if max_notifications ≤ (alert_loop channel msg.timestamp
            ((message_preview msg.text).take 100) stopBy deliver 0).finalCount
          then (send_notification (deliver Sent.maxReached) Sent.maxReached).1
          else [])) := by
  unfold start_notification_loop
  by_cases hc : max_notifications ≤ (alert_loop channel msg.timestamp
      ((message_preview msg.text).take 100) stopBy deliver 0).finalCount <;>
    simp [h, hc]

theorem cycle_errors (st : EscalationState) (h : st.notification_active = false)
    (channel : String) (msg : ChannelMessage) (stopBy : Nat → Bool)
    (deliver : Sent → Option String) :
    (start_notification_loop st channel msg stopBy deliver).errors =
      (send_notification (deliver (Sent.initial channel (sender_display msg.sender)
          msg.timestamp (message_preview msg.text)))
        (Sent.initial channel (sender_display msg.sender) msg.timestamp
          (message_preview msg.text))).2 ++
      ((alert_loop channel msg.timestamp ((message_preview msg.text).take 100)
          stopBy deliver 0).errors ++
        (if max_notifications ≤ (alert_loop channel msg.timestamp
            ((message_preview msg.text).take 100) stopBy deliver 0).finalCount
          then (send_notification (deliver Sent.maxReached) Sent.maxReached).2
          else [])) := by
  unfold start_notification_loop
  by_cases hc : max_notifications ≤ (alert_loop channel msg.timestamp
      ((message_preview msg.text).take 100) stopBy deliver 0).finalCount <;>
    simp [h, hc]

theorem cycle_final (st : EscalationState) (h : st.notification_active = false)
    (channel : String) (msg : ChannelMessage) (stopBy : Nat → Bool)
    (deliver : Sent → Option String) :
    (start_notification_loop st channel msg stopBy deliver).final =
      ⟨false, stopBy (alert_loop channel msg.timestamp
        ((message_preview msg.text).take 100) stopBy deliver 0).finalCount⟩ := by
  unfold start_notification_loop
  simp [h, flags_at_stop]

theorem cycle_noop (st : EscalationState) (h : st.notification_active = true)
    (channel : String) (msg : ChannelMessage) (stopBy : Nat → Bool)
    (deliver : Sent → Option String) :
    start_notification_loop st channel msg stopBy deliver = ⟨[], [], [], st⟩ := by
  unfold start_notification_loop
  simp [h]

/-- With no stop command ever handled, the loop runs to the cap. -/
theorem alert_loop_nostop_finalCount (channel timestamp : String)
    (slot : List Char) (deliver : Sent → Option String) :
    (alert_loop channel timestamp slot (fun _ => false) deliver 0).finalCount =
      max_notifications := by
  have h := alert_loop_spec channel timestamp slot (fun _ => false) deliver
    max_notifications 0 (by omega) (by omega)
  rcases h.2.2.2.1 with h1 | h1
  · exact absurd h1 (by simp)
  · exact h1

/-! ## The claims -/

/-- C1: with the hard-coded cap `max_notifications = 25`, a triggering event
arriving while the flags are idle and no stop command ever handled makes the
cycle send exactly one initial detailed notification, then exactly 25
escalation alerts carrying sequence numbers 1 through 25 in order
(`List.range' 1 25 = [1, ..., 25]`), then exactly one
"maximum notifications reached" notice; afterwards `notification_active` is
false. -/
theorem claim_C1 (channel : String) (msg : ChannelMessage) :
    max_notifications = 25 ∧
    (scenarioA channel msg).attempted =
      Sent.initial channel (sender_display msg.sender) msg.timestamp
          (message_preview msg.text) ::
        ((List.range' 1 25).map (fun i => Sent.alert i channel msg.timestamp
            ((message_preview msg.text).take 100)) ++ [Sent.maxReached]) ∧
    (scenarioA channel msg).delivered = (scenarioA channel msg).attempted ∧
    (scenarioA channel msg).errors = [] ∧
    (scenarioA channel msg).final = ⟨false, false⟩ := by
  have hspec := alert_loop_spec channel msg.timestamp
    ((message_preview msg.text).take 100) (fun _ => false) (fun _ => none)
    max_notifications 0 (by omega) (by omega)
  obtain ⟨hA, hLo, hHi, hExit, hD, hE⟩ := hspec
  have hfc : (alert_loop channel msg.timestamp
      ((message_preview msg.text).take 100) (fun _ => false)
      (fun _ => none) 0).finalCount = 25 :=
    alert_loop_nostop_finalCount channel msg.timestamp
      ((message_preview msg.text).take 100) (fun _ => none)
  have hA' : (alert_loop channel msg.timestamp
      ((message_preview msg.text).take 100) (fun _ => false)
      (fun _ => none) 0).attempted =
      (List.range' 1 25).map (fun i => Sent.alert i channel msg.timestamp
        ((message_preview msg.text).take 100)) := by
    rw [hA, hfc]
  refine ⟨rfl, ?_, ?_, ?_, ?_⟩
  · rw [scenarioA, cycle_attempted _ rfl, hA', hfc]
    simp [max_notifications]
  · rw [scenarioA, cycle_delivered _ rfl, cycle_attempted _ rfl, hD, hfc]
    simp [max_notifications, send_notification]
  · rw [scenarioA, cycle_errors _ rfl, hfc]
    have herr : (alert_loop channel msg.timestamp
        ((message_preview msg.text).take 100) (fun _ => false)
        (fun _ => none) 0).errors = [] := by
      have := hE
      simp only [Option.isSome_none, List.filter_false, List.length_nil] at this
      exact List.length_eq_zero.mp this
    rw [herr]
    simp [max_notifications, send_notification]
  · rw [scenarioA, cycle_final _ rfl]

/-- C4: within one cycle, the alert counter starts at 0 and the attempted
alerts carry the consecutive sequence numbers `1, ..., finalCount` (the
counter goes up by exactly 1 per iteration, hence is strictly increasing);
the counter never exceeds `max_notifications = 25`; and for every interference
schedule and every transport behaviour the loop terminates, exiting either
because a stop command flipped the flags (`stopBy finalCount = true`) or
because the counter reached the cap. -/
theorem claim_C4 (channel timestamp : String) (slot : List Char)
    (stopBy : Nat → Bool) (deliver : Sent → Option String) :
    (alert_loop channel timestamp slot stopBy deliver 0).attempted =
      (List.range' 1
          (alert_loop channel timestamp slot stopBy deliver 0).finalCount).map
        (fun i => Sent.alert i channel timestamp slot) ∧
    (alert_loop channel timestamp slot stopBy deliver 0).attempted.length =
      (alert_loop channel timestamp slot stopBy deliver 0).finalCount ∧
    (alert_loop channel timestamp slot stopBy deliver 0).finalCount
      ≤ max_notifications ∧
    (stopBy (alert_loop channel timestamp slot stopBy deliver 0).finalCount
        = true ∨
      (alert_loop channel timestamp slot stopBy deliver 0).finalCount
        = max_notifications) := by
  have hspec := alert_loop_spec channel timestamp slot stopBy deliver
    max_notifications 0 (by omega) (by omega)
  obtain ⟨hA, hLo, hHi, hExit, hD, hE⟩ := hspec
  refine ⟨by simpa using hA, ?_, hHi, hExit⟩
  have := hA
  simp only [Nat.sub_zero] at this
  rw [this]
  simp

/-- C3: at most one escalation cycle is active at a time.  A trigger handled
while `notification_active` is true is a no-op: nothing is sent, no error is
logged, no state field changes, and nothing is queued (the task returns at
once).  A trigger handled while `notification_active` is false starts exactly
one cycle — exactly one initial detailed notification appears in the trace —
and the cycle it runs is independent of the previous `stop_requested` value
(entry resets the flags to active, not-stop-requested; the counter restarts at
0, visible in `claim_C4`'s numbering of the alerts from 1). -/
theorem claim_C3 (st : EscalationState) (channel : String)
    (msg : ChannelMessage) (stopBy : Nat → Bool)
    (deliver : Sent → Option String) :
    (st.notification_active = true →
      start_notification_loop st channel msg stopBy deliver = ⟨[], [], [], st⟩ ∧
      count_initials
        (start_notification_loop st channel msg stopBy deliver).attempted = 0) ∧
    (st.notification_active = false →
      start_notification_loop st channel msg stopBy deliver =
        start_notification_loop ⟨false, false⟩ channel msg stopBy deliver ∧
      count_initials
        (start_notification_loop st channel msg stopBy deliver).attempted = 1) := by
  constructor
  · intro h
    rw [cycle_noop st h]
    exact ⟨rfl, rfl⟩
  · intro h
    have heq : start_notification_loop st channel msg stopBy deliver =
        start_notification_loop ⟨false, false⟩ channel msg stopBy deliver := by
      unfold start_notification_loop
      simp [h]
    refine ⟨heq, ?_⟩
    rw [cycle_attempted st h]
    have hspec := alert_loop_spec channel msg.timestamp
      ((message_preview msg.text).take 100) stopBy deliver
      max_notifications 0 (by omega) (by omega)
    rw [hspec.1]
    unfold count_initials
    by_cases hc : max_notifications ≤ (alert_loop channel msg.timestamp
        ((message_preview msg.text).take 100) stopBy deliver 0).finalCount <;>
      simp [hc, List.filter_append, is_initial, List.filter_map]

/-- C7: send failures are best-effort.  For every transport behaviour
`deliver`, the composed messages and the final flag state of a cycle equal
those of a run in which every send succeeds (the cycle is not aborted and the
loop's control flow never sees the error); the delivered messages are exactly
the attempted ones the transport accepted (each composed message is handed to
the transport exactly once — no retry); and each rejected send produces
exactly one error-log line (the `TelegramError` is consumed by
`send_notification`'s `except` block and never propagates out of the
cycle). -/
theorem claim_C7 (st : EscalationState) (channel : String)
    (msg : ChannelMessage) (stopBy : Nat → Bool)
    (deliver : Sent → Option String) :
    (start_notification_loop st channel msg stopBy deliver).attempted =
      (start_notification_loop st channel msg stopBy (fun _ => none)).attempted ∧
    (start_notification_loop st channel msg stopBy deliver).final =
      (start_notification_loop st channel msg stopBy (fun _ => none)).final ∧
    (start_notification_loop st channel msg stopBy deliver).delivered =
      (start_notification_loop st channel msg stopBy deliver).attempted.filter
        (fun m => (deliver m).isNone) ∧
    (start_notification_loop st channel msg stopBy deliver).errors.length =
      ((start_notification_loop st channel msg stopBy deliver).attempted.filter
        (fun m => (deliver m).isSome)).length := by
  cases hact : st.notification_active with
  | true =>
    rw [cycle_noop st hact]
    exact ⟨(cycle_noop st hact ..).symm ▸ rfl, by rw [cycle_noop st hact], rfl, rfl⟩
  | false =>
    have hirrel := alert_loop_deliver_irrel channel msg.timestamp
      ((message_preview msg.text).take 100) stopBy max_notifications 0
      (by omega) deliver (fun _ => none)
    have hspec := alert_loop_spec channel msg.timestamp
      ((message_preview msg.text).take 100) stopBy deliver
      max_notifications 0 (by omega) (by omega)
    obtain ⟨hA, hLo, hHi, hExit, hD, hE⟩ := hspec
    refine ⟨?_, ?_, ?_, ?_⟩
    · rw [cycle_attempted st hact, cycle_attempted st hact, hirrel.1, hirrel.2]
    · rw [cycle_final st hact, cycle_final st hact, hirrel.2]
    · rw [cycle_delivered st hact, cycle_attempted st hact, hD]
      rw [List.filter_cons, List.filter_append]
      cases h0 : deliver (Sent.initial channel (sender_display msg.sender)
          msg.timestamp (message_preview msg.text)) with
      | none =>
        cases hm : deliver Sent.maxReached with
        | none =>
          by_cases hc : max_notifications ≤ (alert_loop channel msg.timestamp
              ((message_preview msg.text).take 100) stopBy deliver 0).finalCount <;>
            simp [send_notification, h0, hm, hc]
        | some e =>
          by_cases hc : max_notifications ≤ (alert_loop channel msg.timestamp
              ((message_preview msg.text).take 100) stopBy deliver 0).finalCount <;>
            simp [send_notification, h0, hm, hc]
      | some e =>
        cases hm : deliver Sent.maxReached with
        | none =>
          by_cases hc : max_notifications ≤ (alert_loop channel msg.timestamp
              ((message_preview msg.text).take 100) stopBy deliver 0).finalCount <;>
            simp [send_notification, h0, hm, hc]
        | some e' =>
          by_cases hc : max_notifications ≤ (alert_loop channel msg.timestamp
              ((message_preview msg.text).take 100) stopBy deliver 0).finalCount <;>
            simp [send_notification, h0, hm, hc]
    · rw [cycle_errors st hact, cycle_attempted st hact]
      rw [List.filter_cons, List.filter_append]
      cases h0 : deliver (Sent.initial channel (sender_display msg.sender)
          msg.timestamp (message_preview msg.text)) with
      | none =>
        cases hm : deliver Sent.maxReached with
        | none =>
          by_cases hc : max_notifications ≤ (alert_loop channel msg.timestamp
              ((message_preview msg.text).take 100) stopBy deliver 0).finalCount <;>
            simp [send_notification, h0, hm, hc, hE]
        | some e =>
          by_cases hc : max_notifications ≤ (alert_loop channel msg.timestamp
              ((message_preview msg.text).take 100) stopBy deliver 0).finalCount <;>
            simp [send_notification, h0, hm, hc, hE]
      | some e =>
        cases hm : deliver Sent.maxReached with
        | none =>
          by_cases hc : max_notifications ≤ (alert_loop channel msg.timestamp
              ((message_preview msg.text).take 100) stopBy deliver 0).finalCount <;>
            simp [send_notification, h0, hm, hc, hE]
        | some e' =>
          by_cases hc : max_notifications ≤ (alert_loop channel msg.timestamp
              ((message_preview msg.text).take 100) stopBy deliver 0).finalCount <;>
            simp [send_notification, h0, hm, hc, hE]

theorem claim_C3_witness :
    (start_notification_loop ⟨true, false⟩ "chan"
        ⟨some "hi".toList, ⟨some "Bob", none⟩, "12:00"⟩ (fun _ => false)
        (fun _ => none) = ⟨[], [], [], ⟨true, false⟩⟩ ∧
      count_initials (start_notification_loop ⟨true, false⟩ "chan"
        ⟨some "hi".toList, ⟨some "Bob", none⟩, "12:00"⟩ (fun _ => false)
        (fun _ => none)).attempted = 0) ∧
    (start_notification_loop ⟨false, true⟩ "chan"
        ⟨some "hi".toList, ⟨some "Bob", none⟩, "12:00"⟩ (fun _ => false)
        (fun _ => none) =
      start_notification_loop ⟨false, false⟩ "chan"
        ⟨some "hi".toList, ⟨some "Bob", none⟩, "12:00"⟩ (fun _ => false)
        (fun _ => none) ∧
      count_initials (start_notification_loop ⟨false, true⟩ "chan"
        ⟨some "hi".toList, ⟨some "Bob", none⟩, "12:00"⟩ (fun _ => false)
        (fun _ => none)).attempted = 1) :=
  ⟨(claim_C3 ⟨true, false⟩ "chan" ⟨some "hi".toList, ⟨some "Bob", none⟩, "12:00"⟩
      (fun _ => false) (fun _ => none)).1 rfl,
   (claim_C3 ⟨false, true⟩ "chan" ⟨some "hi".toList, ⟨some "Bob", none⟩, "12:00"⟩
      (fun _ => false) (fun _ => none)).2 rfl⟩

/-- C5: for a message body longer than 150 characters, the preview embedded in
the initial detailed notification is exactly the first 150 characters of the
body, and the preview slot embedded in every escalation alert of the cycle is
exactly the first 100 characters of the body, rendered with the template's
trailing ellipsis. -/
theorem claim_C5 (t : List Char) (h : 150 < t.length) (channel : String)
    (sender : Sender) (ts : String) (stopBy : Nat → Bool)
    (deliver : Sent → Option String) :
    message_preview (some t) = t.take 150 ∧
    (message_preview (some t)).length = 150 ∧
    (start_notification_loop ⟨false, false⟩ channel ⟨some t, sender, ts⟩
        stopBy deliver).attempted.head? =
      some (Sent.initial channel (sender_display sender) ts (t.take 150)) ∧
    (∀ i c tm p, Sent.alert i c tm p ∈ (start_notification_loop ⟨false, false⟩
        channel ⟨some t, sender, ts⟩ stopBy deliver).attempted →
      p = t.take 100 ∧
      alert_preview_rendered p = t.take 100 ++ "...".toList) := by
  have hne : ¬ t.isEmpty := by
    cases t with
    | nil => simp at h
    | cons a l => simp
  have hmp : message_preview (some t) = t.take 150 := by
    unfold message_preview
    simp [hne]
  have hlen : (message_preview (some t)).length = 150 := by
    rw [hmp, List.length_take]
    omega
  have hslot : (message_preview (some t)).take 100 = t.take 100 := by
    rw [hmp, List.take_take]
    norm_num
  refine ⟨hmp, hlen, ?_, ?_⟩
  · rw [cycle_attempted _ rfl]
    simp [hmp]
  · intro i c tm p hmem
    rw [cycle_attempted _ rfl] at hmem
    have hspec := alert_loop_spec channel ts
      ((message_preview (some t)).take 100) stopBy deliver
      max_notifications 0 (by omega) (by omega)
    rw [List.mem_cons] at hmem
    rcases hmem with hmem | hmem
    · exact absurd hmem (by simp)
    · rw [List.mem_append] at hmem
      rcases hmem with hmem | hmem
      · rw [hspec.1] at hmem
        rw [List.mem_map] at hmem
        obtain ⟨j, -, hj⟩ := hmem
        have hp : p = (message_preview (some t)).take 100 := by
          cases hj; rfl
        rw [hp, hslot]
        exact ⟨rfl, rfl⟩
      · by_cases hc : max_notifications ≤ (alert_loop channel ts
            ((message_preview (some t)).take 100) stopBy deliver 0).finalCount <;>
          simp [hc] at hmem

/-- C9: a triggering message with no text body (`new_message.text` is `None`)
uses the literal string "Media message" as the preview: it is embedded as-is
in the initial detailed notification, and the 100-character slice embedded in
every escalation alert of the cycle is again exactly "Media message" (the
template's ellipsis follows it) — never a truncation of a body. -/
theorem claim_C9 (channel : String) (sender : Sender) (ts : String)
    (stopBy : Nat → Bool) (deliver : Sent → Option String) :
    message_preview none = "Media message".toList ∧
    (start_notification_loop ⟨false, false⟩ channel ⟨none, sender, ts⟩
        stopBy deliver).attempted.head? =
      some (Sent.initial channel (sender_display sender) ts
        "Media message".toList) ∧
    (∀ i c tm p, Sent.alert i c tm p ∈ (start_notification_loop ⟨false, false⟩
        channel ⟨none, sender, ts⟩ stopBy deliver).attempted →
      p = "Media message".toList) := by
  have hslot : (message_preview none).take 100 = "Media message".toList := rfl
  refine ⟨rfl, ?_, ?_⟩
  · rw [cycle_attempted _ rfl]
    rfl
  · intro i c tm p hmem
    rw [cycle_attempted _ rfl] at hmem
    have hspec := alert_loop_spec channel ts
      ((message_preview none).take 100) stopBy deliver
      max_notifications 0 (by omega) (by omega)
    rw [List.mem_cons] at hmem
    rcases hmem with hmem | hmem
    · exact absurd hmem (by simp)
    · rw [List.mem_append] at hmem
      rcases hmem with hmem | hmem
      · rw [hspec.1] at hmem
        rw [List.mem_map] at hmem
        obtain ⟨j, -, hj⟩ := hmem
        have hp : p = (message_preview none).take 100 := by
          cases hj; rfl
        rw [hp, hslot]
      · by_cases hc : max_notifications ≤ (alert_loop channel ts
            ((message_preview none).take 100) stopBy deliver 0).finalCount <;>
          simp [hc] at hmem

theorem claim_C5_witness :
    150 < (List.replicate 151 'a').length ∧
    message_preview (some (List.replicate 151 'a')) =
      (List.replicate 151 'a').take 150 ∧
    (message_preview (some (List.replicate 151 'a'))).length = 150 :=
  ⟨by simp,
   (claim_C5 (List.replicate 151 'a') (by simp) "chan" ⟨some "Bob", none⟩
      "12:00" (fun _ => false) (fun _ => none)).1,
   (claim_C5 (List.replicate 151 'a') (by simp) "chan" ⟨some "Bob", none⟩
      "12:00" (fun _ => false) (fun _ => none)).2.1⟩

/-- Scanning a batch whose first matching command is `u`: the scan ignores the
non-matching prefix, handles `u`, and never looks at the rest of the batch
(the result does not mention `rest`). -/
theorem stop_scan_first_match (user_id : Int) (confirmFails ackFails : Bool)
    (st : EscalationState) :
    ∀ pre : List Update, (∀ v ∈ pre, is_stop_update user_id v = false) →
      ∀ (u : Update) (rest : List Update), is_stop_update user_id u = true →
      stop_scan user_id confirmFails ackFails st (pre ++ u :: rest) =
        (if confirmFails then ⟨⟨false, true⟩, [], none, false⟩
         else if ackFails then
           ⟨⟨false, true⟩, [Sent.stopConfirmation], none, false⟩
         else ⟨⟨false, true⟩, [Sent.stopConfirmation],
           some (u.update_id + 1), true⟩) := by
  intro pre
  induction pre with
  | nil =>
    intro hpre u rest hu
    simp only [List.nil_append, stop_scan, hu, if_true]
  | cons v vs ih =>
    intro hpre u rest hu
    have hv : is_stop_update user_id v = false := hpre v (by simp)
    simp only [List.cons_append, stop_scan, hv, Bool.false_eq_true, if_false]
    exact ih (fun w hw => hpre w (by simp [hw])) u rest hu

/-- The code-side stop test matches the claim's wording: message present,
sender id equal to the configured recipient, text present and equal to
`/stop` after stripping surrounding whitespace and lowercasing. -/
theorem is_stop_update_iff (user_id : Int) (u : Update) :
    is_stop_update user_id u = true ↔
      ∃ m t, u.message = some m ∧ m.from_user_id = user_id ∧
        m.text = some t ∧ pyLower (pyStrip t) = "/stop".toList := by
  obtain ⟨uid, msg⟩ := u
  cases msg with
  | none => simp [is_stop_update]
  | some m =>
    obtain ⟨fid, txt⟩ := m
    cases txt with
    | none => simp [is_stop_update]
    | some t =>
      constructor
      · intro h
        simp only [is_stop_update, Bool.and_eq_true, beq_iff_eq,
          Bool.not_eq_true', beq_eq_false_iff_ne, ne_eq] at h
        exact ⟨⟨fid, some t⟩, t, rfl, h.1, rfl, h.2.2⟩
      · rintro ⟨m', t', hm, hid, ht, hnorm⟩
        simp only [Option.some.injEq] at hm
        subst hm
        simp only [Option.some.injEq] at ht
        have htne : t' ≠ [] := by
          intro he
          rw [he] at hnorm
          exact absurd hnorm (by decide)
        subst ht
        simp [is_stop_update, hnorm, htne]
        exact hid

/-- With a threshold interference schedule — the poller handles the stop
during the sleep that follows alert number `n` — the loop sends exactly the
alerts `1, ..., n` and exits with `notification_count = n`. -/
theorem alert_loop_threshold (channel timestamp : String) (slot : List Char)
    (deliver : Sent → Option String) (n : Nat) (hn : n ≤ max_notifications) :
    ∀ fuel count, count ≤ n → n - count ≤ fuel →
      (alert_loop channel timestamp slot (fun k => decide (n ≤ k)) deliver
        count).finalCount = n := by
  intro fuel
  induction fuel with
  | zero =>
    intro count hcn hf
    have hc : count = n := by omega
    have hcond : ¬ ((flags_at (fun k => decide (n ≤ k)) count).notification_active
        = true ∧ (flags_at (fun k => decide (n ≤ k)) count).stop_requested
        = false ∧ count < max_notifications) := by
      rintro ⟨ha, -, -⟩
      rw [flags_at_active] at ha
      simp [hc] at ha
    rw [alert_loop, dif_neg hcond]
    exact hc
  | succ fuel ih =>
    intro count hcn hf
    by_cases hc : count = n
    · have hcond : ¬ ((flags_at (fun k => decide (n ≤ k)) count).notification_active
          = true ∧ (flags_at (fun k => decide (n ≤ k)) count).stop_requested
          = false ∧ count < max_notifications) := by
        rintro ⟨ha, -, -⟩
        rw [flags_at_active] at ha
        simp [hc] at ha
      rw [alert_loop, dif_neg hcond]
      exact hc
    · have hlt : count < n := by omega
      have hcond : (flags_at (fun k => decide (n ≤ k)) count).notification_active
          = true ∧ (flags_at (fun k => decide (n ≤ k)) count).stop_requested
          = false ∧ count < max_notifications := by
        refine ⟨?_, ?_, by omega⟩
        · rw [flags_at_active]; simp; omega
        · rw [flags_at_stop]; simp; omega
      rw [alert_loop, dif_pos hcond]
      exact ih (count + 1) (by omega) (by omega)

/-- C2: the stop-command protocol and end-to-end scenario B.  For every polled
batch whose first matching command is `u` — message present, sender equal to
the configured recipient, text `/stop` after trimming and lowercasing
(`is_stop_update_iff` below ties the code's test to that wording) — the
poller sets the flags to (not-active, stop-requested), sends exactly one
confirmation whose text reads "Notifications stopped!", acknowledges offset
`u.update_id + 1` (consuming `u` and every preceding update), returns
handled, and ignores the rest of the batch.  Consequently, when such a
command is handled during the sleep after alert 3, the run sends exactly
1 initial notification, 3 alerts, and 1 confirmation, no further alerts, and
ends with `active = false`, `stop_requested = true`. -/
theorem claim_C2 (st : EscalationState) (user_id : Int) (pre : List Update)
    (u : Update) (rest : List Update)
    (hpre : ∀ v ∈ pre, is_stop_update user_id v = false)
    (hu : is_stop_update user_id u = true)
    (channel : String) (msg : ChannelMessage) :
    (∀ u' : Update, is_stop_update user_id u' = true ↔
      ∃ m t, u'.message = some m ∧ m.from_user_id = user_id ∧
        m.text = some t ∧ pyLower (pyStrip t) = "/stop".toList) ∧
    check_stop_command st user_id (.ok (pre ++ u :: rest)) false false =
      ⟨⟨false, true⟩, [Sent.stopConfirmation], some (u.update_id + 1), true⟩ ∧
    stop_confirmation_text = "✅ " ++ "Notifications stopped!" ∧
    scenario_stop_after 3 channel msg user_id u =
      (Sent.initial channel (sender_display msg.sender) msg.timestamp
          (message_preview msg.text) ::
        ((List.range' 1 3).map (fun i => Sent.alert i channel msg.timestamp
            ((message_preview msg.text).take 100)) ++
          [Sent.stopConfirmation]),
       ⟨false, true⟩) := by
  refine ⟨is_stop_update_iff user_id, ?_, rfl, ?_⟩
  · simp only [check_stop_command]
    rw [stop_scan_first_match user_id false false st pre hpre u rest hu]
    rfl
  · have hfc : (alert_loop channel msg.timestamp
        ((message_preview msg.text).take 100) (fun k => decide (3 ≤ k))
        (fun _ => none) 0).finalCount = 3 :=
      alert_loop_threshold channel msg.timestamp
        ((message_preview msg.text).take 100) (fun _ => none) 3 (by decide)
        3 0 (by omega) (by decide)
    have hspec := alert_loop_spec channel msg.timestamp
      ((message_preview msg.text).take 100) (fun k => decide (3 ≤ k))
      (fun _ => none) max_notifications 0 (by omega) (by omega)
    have hA : (alert_loop channel msg.timestamp
        ((message_preview msg.text).take 100) (fun k => decide (3 ≤ k))
        (fun _ => none) 0).attempted =
        (List.range' 1 3).map (fun i => Sent.alert i channel msg.timestamp
          ((message_preview msg.text).take 100)) := by
      have := hspec.1
      rw [hfc] at this
      simpa using this
    have hpoll : check_stop_command ⟨true, false⟩ user_id (.ok [u]) false false =
        ⟨⟨false, true⟩, [Sent.stopConfirmation], some (u.update_id + 1), true⟩ := by
      simp only [check_stop_command]
      have := stop_scan_first_match user_id false false ⟨true, false⟩ []
        (by intro v hv; simp at hv) u [] hu
      simpa using this
    simp only [scenario_stop_after]
    rw [hpoll, cycle_attempted _ rfl, cycle_final _ rfl, hA, hfc]
    simp [max_notifications]

/-- C10: when a valid stop command is handled, the flags are assigned before
the confirmation is sent and before the offset acknowledgement: whatever the
outcome of those two calls, the poller leaves
`notification_active = false, stop_requested = true`.  If the confirmation
send raises, no confirmation is sent and nothing is acknowledged (the caught
exception makes the call return `False`); if the acknowledgement raises, the
confirmation was sent but no offset is acknowledged.  In every case the
escalation loop observes the flags at its next check and exits at once. -/
theorem claim_C10 (st : EscalationState) (user_id : Int) (pre : List Update)
    (u : Update) (rest : List Update)
    (hpre : ∀ v ∈ pre, is_stop_update user_id v = false)
    (hu : is_stop_update user_id u = true)
    (confirmFails ackFails : Bool) :
    (check_stop_command st user_id (.ok (pre ++ u :: rest))
      confirmFails ackFails).state = ⟨false, true⟩ ∧
    (confirmFails = true →
      check_stop_command st user_id (.ok (pre ++ u :: rest))
        confirmFails ackFails = ⟨⟨false, true⟩, [], none, false⟩) ∧
    (confirmFails = false → ackFails = true →
      check_stop_command st user_id (.ok (pre ++ u :: rest))
        confirmFails ackFails =
        ⟨⟨false, true⟩, [Sent.stopConfirmation], none, false⟩) ∧
    (∀ (channel timestamp : String) (slot : List Char)
        (deliver : Sent → Option String) (count : Nat),
      alert_loop channel timestamp slot (fun _ => true) deliver count =
        ⟨[], [], [], count⟩) := by
  have hscan := stop_scan_first_match user_id confirmFails ackFails st pre hpre
    u rest hu
  have hexit : ∀ (channel timestamp : String) (slot : List Char)
      (deliver : Sent → Option String) (count : Nat),
      alert_loop channel timestamp slot (fun _ => true) deliver count =
        ⟨[], [], [], count⟩ := by
    intro channel timestamp slot deliver count
    have hcond : ¬ ((flags_at (fun _ => true) count).notification_active
        = true ∧ (flags_at (fun _ => true) count).stop_requested
        = false ∧ count < max_notifications) := by
      rintro ⟨ha, -, -⟩
      rw [flags_at_active] at ha
      simp at ha
    rw [alert_loop, dif_neg hcond]
  refine ⟨?_, ?_, ?_, hexit⟩
  · simp only [check_stop_command]
    rw [hscan]
    cases confirmFails <;> cases ackFails <;> rfl
  · intro hcf
    simp only [check_stop_command]
    rw [hscan, hcf]
    rfl
  · intro hcf haf
    simp only [check_stop_command]
    rw [hscan, hcf, haf]
    rfl

theorem claim_C2_witness :
    check_stop_command ⟨true, false⟩ 7
        (.ok [⟨5, some ⟨7, some "  /STOP  ".toList⟩⟩]) false false =
      ⟨⟨false, true⟩, [Sent.stopConfirmation], some 6, true⟩ ∧
    stop_confirmation_text = "✅ " ++ "Notifications stopped!" :=
  ⟨by
    have h := (claim_C2 ⟨true, false⟩ 7 []
      ⟨5, some ⟨7, some "  /STOP  ".toList⟩⟩ []
      (by intro v hv; simp at hv) (by decide) "chan"
      ⟨none, ⟨none, none⟩, "12:00"⟩).2.1
    simpa using h,
   (claim_C2 ⟨true, false⟩ 7 [] ⟨5, some ⟨7, some "  /STOP  ".toList⟩⟩ []
      (by intro v hv; simp at hv) (by decide) "chan"
      ⟨none, ⟨none, none⟩, "12:00"⟩).2.2.1⟩

theorem claim_C10_witness :
    (check_stop_command ⟨true, false⟩ 7
      (.ok [⟨5, some ⟨7, some " /stop".toList⟩⟩]) true false).state =
      ⟨false, true⟩ ∧
    check_stop_command ⟨true, false⟩ 7
        (.ok [⟨5, some ⟨7, some " /stop".toList⟩⟩]) true false =
      ⟨⟨false, true⟩, [], none, false⟩ :=
  ⟨(claim_C10 ⟨true, false⟩ 7 [] ⟨5, some ⟨7, some " /stop".toList⟩⟩ []
      (by intro v hv; simp at hv) (by decide) true false).1,
   (claim_C10 ⟨true, false⟩ 7 [] ⟨5, some ⟨7, some " /stop".toList⟩⟩ []
      (by intro v hv; simp at hv) (by decide) true false).2.1 rfl⟩

/-- When every `int`-typed setting parses, the `missing_vars` list computed by
`_validate_config` is exactly the spec's list of absent-or-zero-valued
required settings, in the same order. -/
theorem missing_vars_eq_spec (env : Env) (a b c : Int)
    (ha : pyInt (getenv env.API_ID "0") = some a)
    (hb : pyInt (getenv env.USER_ID "0") = some b)
    (hc : pyInt (getenv env.NOTIFICATION_INTERVAL "30") = some c) :
    missing_vars ⟨a, getenv env.API_HASH "", getenv env.PHONE_NUMBER "",
      getenv env.BOT_TOKEN "", b, getenv env.CHANNEL_USERNAME "", c⟩ =
      spec_missing_settings env := by
  have hA : (env.API_ID = none ∨ pyInt (getenv env.API_ID "0") = some 0) ↔
      a = 0 := by
    constructor
    · rintro (h | h)
      · rw [h] at ha
        have h0 : pyInt (getenv none "0") = some 0 := by decide
        rw [h0] at ha
        exact (Option.some.inj ha).symm
      · rw [h] at ha
        exact (Option.some.inj ha).symm
    · intro h
      right
      rw [ha, h]
  have hU : (env.USER_ID = none ∨ pyInt (getenv env.USER_ID "0") = some 0) ↔
      b = 0 := by
    constructor
    · rintro (h | h)
      · rw [h] at hb
        have h0 : pyInt (getenv none "0") = some 0 := by decide
        rw [h0] at hb
        exact (Option.some.inj hb).symm
      · rw [h] at hb
        exact (Option.some.inj hb).symm
    · intro h
      right
      rw [hb, h]
  have hH : (env.API_HASH = none ∨ env.API_HASH = some "") ↔
      getenv env.API_HASH "" = "" := by
    cases h : env.API_HASH <;> simp [getenv, h]
  have hP : (env.PHONE_NUMBER = none ∨ env.PHONE_NUMBER = some "") ↔
      getenv env.PHONE_NUMBER "" = "" := by
    cases h : env.PHONE_NUMBER <;> simp [getenv, h]
  have hB : (env.BOT_TOKEN = none ∨ env.BOT_TOKEN = some "") ↔
      getenv env.BOT_TOKEN "" = "" := by
    cases h : env.BOT_TOKEN <;> simp [getenv, h]
  have hC : (env.CHANNEL_USERNAME = none ∨ env.CHANNEL_USERNAME = some "") ↔
      getenv env.CHANNEL_USERNAME "" = "" := by
    cases h : env.CHANNEL_USERNAME <;> simp [getenv, h]
  by_cases k1 : a = 0 <;> by_cases k2 : getenv env.API_HASH "" = "" <;>
    by_cases k3 : getenv env.PHONE_NUMBER "" = "" <;>
    by_cases k4 : getenv env.BOT_TOKEN "" = "" <;> by_cases k5 : b = 0 <;>
    by_cases k6 : getenv env.CHANNEL_USERNAME "" = "" <;>
    simp [missing_vars, required_vars, var_missing, spec_missing_settings,
      hA, hU, hH, hP, hB, hC, k1, k2, k3, k4, k5, k6]

/-- C6: for every environment whose `int`-typed settings parse as integers
(otherwise Python's `int(...)` raises a different, also fatal and also
pre-network, `ValueError` naming that setting), if at least one of the six
required settings is absent or zero-valued, then `__init__` raises the
configuration `ValueError` whose message names exactly the absent-or-zero
settings, before any network activity (startup never reaches
`start_monitoring`): and `NOTIFICATION_INTERVAL` is optional with default
30. -/
theorem claim_C6 (env : Env)
    (h1 : pyInt (getenv env.API_ID "0") ≠ none)
    (h2 : pyInt (getenv env.USER_ID "0") ≠ none)
    (h3 : pyInt (getenv env.NOTIFICATION_INTERVAL "30") ≠ none) :
    (spec_missing_settings env ≠ [] →
      monitor_init env = .error (.missingSettings (spec_missing_settings env)) ∧
      ∀ (se au : Bool) (m : MonitorStart),
        program_startup env se au ≠ .ok m) ∧
    (∀ cfg : Config, monitor_init env = .ok cfg →
      env.NOTIFICATION_INTERVAL = none → cfg.notification_interval = 30) := by
  obtain ⟨a, ha⟩ := Option.ne_none_iff_exists'.mp h1
  obtain ⟨b, hb⟩ := Option.ne_none_iff_exists'.mp h2
  obtain ⟨c, hc⟩ := Option.ne_none_iff_exists'.mp h3
  have hmv := missing_vars_eq_spec env a b c ha hb hc
  constructor
  · intro hne
    have hinit : monitor_init env =
        .error (.missingSettings (spec_missing_settings env)) := by
      simp only [monitor_init, ha, hb, hc, validate_config, hmv, hne, if_false]
    refine ⟨hinit, ?_⟩
    intro se au m
    simp [program_startup, hinit]
  · intro cfg hok hnone
    have hc30 : c = 30 := by
      rw [hnone] at hc
      have h30 : pyInt (getenv none "30") = some 30 := by decide
      rw [h30] at hc
      exact (Option.some.inj hc).symm
    simp only [monitor_init, ha, hb, hc] at hok
    rcases hv : validate_config ⟨a, getenv env.API_HASH "",
        getenv env.PHONE_NUMBER "", getenv env.BOT_TOKEN "", b,
        getenv env.CHANNEL_USERNAME "", c⟩ with missing | u0
    · rw [hv] at hok
      simp at hok
    · rw [hv] at hok
      simp only [Except.ok.injEq] at hok
      rw [← hok, hc30]

theorem claim_C6_witness :
    monitor_init ⟨none, none, none, none, none, none, none⟩ =
      .error (.missingSettings ["API_ID", "API_HASH", "PHONE_NUMBER",
        "BOT_TOKEN", "USER_ID", "CHANNEL_USERNAME"]) ∧
    spec_missing_settings ⟨none, none, none, none, none, none, none⟩ =
      ["API_ID", "API_HASH", "PHONE_NUMBER", "BOT_TOKEN", "USER_ID",
        "CHANNEL_USERNAME"] := by
  have hspec : spec_missing_settings ⟨none, none, none, none, none, none, none⟩ =
      ["API_ID", "API_HASH", "PHONE_NUMBER", "BOT_TOKEN", "USER_ID",
        "CHANNEL_USERNAME"] := by decide
  have h := ((claim_C6 ⟨none, none, none, none, none, none, none⟩
    (by decide) (by decide) (by decide)).1 (by decide)).1
  exact ⟨by rw [h, hspec], hspec⟩

/-- C8: when the transport session is invalid or missing (the client reports
the user as not authorized), `setup_client` raises the distinct
"Authentication required" exception, after logging the instruction to
authenticate interactively first; `start_monitoring` catches it, logs, and
returns — the startup message is never sent, the channel-subscription handler
is never installed, and the command-poll loop never runs.  The error is
distinct from the configuration error: no missing-settings message equals
"Authentication required". -/
theorem claim_C8 (session_file_exists : Bool) (channel : String)
    (interval : Int) :
    (setup_client session_file_exists false).outcome =
      .error "Authentication required" ∧
    "Please run the script interactively first to authenticate." ∈
      (setup_client session_file_exists false).logs ∧
    (start_monitoring session_file_exists false channel
      interval).handlerInstalled = false ∧
    (start_monitoring session_file_exists false channel
      interval).pollerRuns = false ∧
    (start_monitoring session_file_exists false channel
      interval).startupSent = [] ∧
    (∀ missing : List String,
      missing_message missing ≠ "Authentication required") := by
  have hdist : ∀ missing : List String,
      missing_message missing ≠ "Authentication required" := by
    intro missing h
    have hlen := congrArg String.length h
    rw [missing_message, String.length_append] at hlen
    have h40 : ("Missing required environment variables: " : String).length
        = 40 := by decide
    have h23 : ("Authentication required" : String).length = 23 := by decide
    omega
  cases session_file_exists <;>
    exact ⟨rfl, by simp [setup_client], rfl, rfl, rfl, hdist⟩

end TelegramMonitor
